import Mathlib

/-!
Verification of the `installers.py` provisioning script.

The module embeds `src/installers.py` as pure Lean functions over an abstract
environment that fixes what every shell command prints on its output streams
(or that it hangs past the timeout).  The two helpers the script imports from
`cli` (`comm` and `car_apt_warning`) are not part of `src/`, so they are
modelled from the specification; every such definition is marked in its doc
comment.
-/

namespace PcSetup

/-- Boolean test that the first character list is a leading segment of the
second. -/
def isPrefixChars : List Char → List Char → Bool
  | [], _ => true
  | _ :: _, [] => false
  | a :: as, b :: bs => a == b && isPrefixChars as bs

/-- Boolean test that `needle` occurs as a contiguous run inside the second
list. -/
def isInfixChars (needle : List Char) : List Char → Bool
  | [] => isPrefixChars needle []
  | b :: bs => isPrefixChars needle (b :: bs) || isInfixChars needle bs

/-- Substring containment on strings, the model of Python `needle in haystack`. -/
def containsSubstr (needle haystack : String) : Bool :=
  isInfixChars needle.data haystack.data

/-- Splits a character list into lines at newline characters. -/
def splitChars : List Char → List (List Char)
  | [] => [[]]
  | c :: rest =>
    match splitChars rest with
    | [] => [[]]
    | l :: ls => if c = '\n' then [] :: l :: ls else (c :: l) :: ls

/-- Modelled from the spec: the fixed allow-list of benign stderr substrings
consulted by `car_apt_warning`, which lives in `cli.py` and is not part of
`src/`.  The spec names already-installed notices, locale warnings and the
`dpkg-preconfigure` stdin notice as its examples. -/
def benign_warnings : List String :=
  ["is already the newest version",
   "Setting locale failed",
   "dpkg-preconfigure: unable to re-open stdin"]

/-- One stderr line matches the allow-list when some benign substring occurs in
it. -/
def lineIsBenign (line : List Char) : Bool :=
  benign_warnings.any fun b => isInfixChars b.data line

/-- Modelled from the spec: the warning classifier `car_apt_warning` from
`cli.py` (not part of `src/`).  If every line of the stderr text matches a
benign substring it returns the empty string, otherwise the original text. -/
def car_apt_warning (text : String) : String :=
  if (splitChars text.data).all lineIsBenign then "" else text

/-- Observable behaviour of the subordinate process spawned for one command:
how long it runs, its exit code and its captured output streams. -/
structure ProcBehavior where
  duration : Nat
  exitCode : Int
  stdout : String
  stderr : String

/-- Result of the command runner: the captured streams, or a timeout failure. -/
inductive CommOutcome where
  | completed (stdout stderr : String)
  | timeoutError
  deriving DecidableEq

/-- Modelled from the spec: the command runner `comm` from `cli.py` (not part
of `src/`).  Given the behaviour of subordinate processes, it returns the
captured stdout and stderr of a command that completes within the timeout,
regardless of exit code, and fails with a timeout error otherwise. -/
def comm (run : String → ProcBehavior) (timeLimit : Nat) (cmd : String) : CommOutcome :=
  if (run cmd).duration ≤ timeLimit then .completed (run cmd).stdout (run cmd).stderr
  else .timeoutError

/-- What one `comm` call presents to an installer: captured streams, or a
raised `TimeoutExpired`. -/
inductive CommResult where
  | ok (stdout stderr : String)
  | timeout
  deriving DecidableEq

/-- An environment fixes, for every shell command, what it prints on its
streams or that it times out. -/
abbrev Env := String → CommResult

/-- Errors an installer step can raise: `InstallationError` with its message,
or a propagated `TimeoutExpired`. -/
inductive StepError where
  | installationError (msg : String)
  | timeoutExpired
  deriving DecidableEq

/-- A run of an installer: the commands it executed, in order, and its outcome
(the returned boolean, or a raised error). -/
abbrev Trace := List String × Except StepError Bool

/-- The stdout an environment assigns to a command (empty on timeout). -/
def envOut (env : Env) (cmd : String) : String :=
  match env cmd with
  | .ok out _ => out
  | .timeout => ""

/-- The stderr an environment assigns to a command (empty on timeout). -/
def envErr (env : Env) (cmd : String) : String :=
  match env cmd with
  | .ok _ err => err
  | .timeout => ""

/-- No command of the environment exceeds the timeout. -/
def noTimeout (env : Env) : Prop :=
  ∀ cmd, env cmd ≠ CommResult.timeout

/-- Runs one command through the runner and continues with its captured
streams; a timeout aborts the installer with `TimeoutExpired`. -/
def step (env : Env) (cmd : String) (k : String → String → Trace) : Trace :=
  match env cmd with
  | .timeout => ([cmd], .error .timeoutExpired)
  | .ok out err =>
    let r := k out err
    (cmd :: r.1, r.2)

/-- The recurring source pattern `_, errs = comm(cmd)` followed by
`if errs: raise InstallationError(msg)`. -/
def checkStep (env : Env) (cmd msg : String) (k : Trace) : Trace :=
  step env cmd fun _ errs =>
    if errs = "" then k else ([], .error (.installationError msg))

/-- The recurring source pattern for apt invocations, where non-empty stderr
is first screened through `car_apt_warning`. -/
def checkAptStep (env : Env) (cmd msg : String) (k : Trace) : Trace :=
  step env cmd fun _ errs_ =>
    if errs_ = "" then k
    else if car_apt_warning errs_ = "" then k
    else ([], .error (.installationError msg))

/-- The apt package list of `list_apt_pkgs`. -/
def list_apt_pkgs : List String :=
  ["build-essential", "python3-dev", "pkg-config",
   "apt-transport-https", "cmake", "curl", "ca-certificates", "gnupg",
   "lsb-release", "htop", "mmv", "neovim", "tmux"]

/-- The snap app list of `list_snap_pkgs`. -/
def list_snap_pkgs : List String :=
  ["bitwarden", "jdownloader2", "libreoffice", "signal-desktop", "spotify",
   "vlc", "sublime-text --classic", "code --classic"]

/-- `DOWNLOADS_PATH`, relative to the working directory captured at import
time. -/
def DOWNLOADS_PATH (cwd : String) : String := cwd ++ "/inst_downloads"

/-- `CONFIG_FILES_PATH`, relative to the working directory captured at import
time. -/
def CONFIG_FILES_PATH (cwd : String) : String := cwd ++ "/files"

/-- `pre_install`: creates the downloads directory, raising on any stderr. -/
def pre_install (cwd : String) (env : Env) : Trace :=
  checkStep env ("mkdir " ++ DOWNLOADS_PATH cwd) "Failed pre-installation procedure."
    ([], .ok true)

/-- The `apt install -y <pkg>` command. -/
def aptInstallCmd (pkg : String) : String := "apt install -y " ++ pkg

/-- The per-package loop of `install_apt_pkgs`. -/
def apt_pkg_loop (env : Env) : List String → Trace
  | [] => ([], .ok true)
  | pkg :: rest =>
    checkAptStep env (aptInstallCmd pkg) ("Failed to install " ++ pkg ++ ".")
      (apt_pkg_loop env rest)

/-- `install_apt_pkgs`: installs every apt package in list order, screening
stderr through `car_apt_warning`. -/
def install_apt_pkgs (env : Env) : Trace :=
  apt_pkg_loop env list_apt_pkgs

/-- The `install_cmd` local of `install_snap_pkgs`. -/
def snap_install_cmd : String := "snap install "

/-- The snap command built by `install_snap_pkgs` (note the doubled space of
the f-string). -/
def snapCmd (pkg : String) : String := snap_install_cmd ++ " " ++ pkg

/-- The partition loop of `install_snap_pkgs`: the first component collects
packages without the `--classic` flag, the second those with it, each in list
order. -/
def split_snap (pkgs : List String) : List String × List String :=
  pkgs.foldl
    (fun acc pkg =>
      if containsSubstr "--classic" pkg then (acc.1, acc.2 ++ [pkg])
      else (acc.1 ++ [pkg], acc.2))
    ([], [])

/-- One of the two installation loops of `install_snap_pkgs`: raises on any
non-empty stderr, without consulting `car_apt_warning`. -/
def snap_pkg_loop (env : Env) : List String → Trace → Trace
  | [], k => k
  | pkg :: rest, k =>
    checkStep env (snapCmd pkg) ("Failed to install " ++ pkg ++ ".")
      (snap_pkg_loop env rest k)

/-- `install_snap_pkgs`: flagged packages first, then unflagged ones. -/
def install_snap_pkgs (env : Env) : Trace :=
  snap_pkg_loop env (split_snap list_snap_pkgs).2
    (snap_pkg_loop env (split_snap list_snap_pkgs).1 ([], .ok true))

/-- First command of `install_brave_browser`. -/
def brave_keys_cmd : String :=
  "curl -fsSLo /usr/share/keyrings/brave-browser-archive-keyring.gpg " ++
  "https://brave-browser-apt-release.s3.brave.com/brave-browser-archive-keyring.gpg"

/-- Second command of `install_brave_browser`. -/
def brave_repo_cmd : String :=
  "echo " ++
  "\"deb [signed-by=/usr/share/keyrings/brave-browser-archive-keyring.gpg arch=amd64] " ++
  "https://brave-browser-apt-release.s3.brave.com/ stable main\"" ++
  " | " ++
  "tee /etc/apt/sources.list.d/brave-browser-release.list"

/-- Third command of `install_brave_browser`. -/
def brave_apt_cmd : String := "apt update -y && apt install -y brave-browser"

/-- `install_brave_browser`. -/
def install_brave_browser (env : Env) : Trace :=
  checkStep env brave_keys_cmd "Failed to add Brave Browser\x27s fingerprint."
    (checkStep env brave_repo_cmd "Failed to add Brave Browser\x27s ppa."
      (checkAptStep env brave_apt_cmd "Failed to install Brave Browser\x27s apt package."
        ([], .ok true)))

/-- First command of `install_docker`. -/
def docker_keys_cmd : String :=
  "curl -fsSL https://download.docker.com/linux/ubuntu/gpg" ++ " | " ++
  "gpg --dearmor -o /usr/share/keyrings/docker-archive-keyring.gpg"

/-- Second command of `install_docker`. -/
def docker_repo_cmd : String :=
  "echo " ++
  "\"deb [arch=$(dpkg --print-architecture) signed-by=/usr/share/keyrings/docker-archive-keyring.gpg] " ++
  "https://download.docker.com/linux/ubuntu " ++
  "$(lsb_release -cs) stable\"" ++
  " | " ++
  "tee /etc/apt/sources.list.d/docker.list > /dev/null"

/-- Third command of `install_docker`. -/
def docker_update_cmd : String := "apt update -y"

/-- The docker apt packages installed one by one. -/
def docker_pkgs : List String := ["docker-ce", "docker-ce-cli", "containerd.io"]

/-- Post-install command of `install_docker`. -/
def docker_usermod_cmd : String := "usermod -aG docker $USER"

/-- The per-package loop of `install_docker`. -/
def docker_pkg_loop (env : Env) : List String → Trace → Trace
  | [], k => k
  | pkg :: rest, k =>
    checkAptStep env (aptInstallCmd pkg) ("Failed to install Docker " ++ pkg ++ ".")
      (docker_pkg_loop env rest k)

/-- `install_docker`. -/
def install_docker (env : Env) : Trace :=
  checkStep env docker_keys_cmd "Failed to add Docker\x27s fingerprint."
    (checkStep env docker_repo_cmd "Failed to add Docker\x27s ppa."
      (checkAptStep env docker_update_cmd "Failed to install Docker apt packages."
        (docker_pkg_loop env docker_pkgs
          (checkStep env docker_usermod_cmd "Failed to add user to docker group."
            ([], .ok true)))))

/-- First command of `install_fish_shell`. -/
def fish_ppa_cmd : String := "apt-add-repository ppa:fish-shell/release-3 -y"

/-- Second command of `install_fish_shell`. -/
def fish_apt_cmd : String := "apt update -y && apt install -y fish"

/-- `install_fish_shell`. -/
def install_fish_shell (env : Env) : Trace :=
  checkStep env fish_ppa_cmd "Failed to add Fish\x27s ppa."
    (checkAptStep env fish_apt_cmd "Failed to install Fish shell."
      ([], .ok true))

/-- The `file_name` local of `install_google_chrome`. -/
def chrome_file_name : String := "google-chrome-stable_current_amd64.deb"

/-- Download command of `install_google_chrome`. -/
def chrome_dl_cmd (cwd : String) : String :=
  "cd " ++ DOWNLOADS_PATH cwd ++ " && curl -sO " ++
  ("https://dl.google.com/linux/direct/" ++ chrome_file_name)

/-- Install command of `install_google_chrome`. -/
def chrome_inst_cmd (cwd : String) : String :=
  "cd " ++ DOWNLOADS_PATH cwd ++ " && apt install -y ./" ++ chrome_file_name

/-- `install_google_chrome`. -/
def install_google_chrome (cwd : String) (env : Env) : Trace :=
  checkStep env (chrome_dl_cmd cwd) "Failed to download Google Chrome\x27s .deb file."
    (checkAptStep env (chrome_inst_cmd cwd) "Failed to install Google Chrome from .deb file."
      ([], .ok true))

/-- The installation-script command of `install_poetry`, parameterised by the
`python_v` suffix. -/
def poetry_cmd (python_v : String) : String :=
  "curl -sSL https://raw.githubusercontent.com/python-poetry/poetry/master/get-poetry.py | python" ++
  python_v ++ " -"

/-- `install_poetry`.  When the script writes to stderr the source evaluates
`InstallationError("Poetry was not installed.")` without `raise` (line 300 of
`installers.py`), so no error propagates and the function returns `True` on
both branches. -/
def install_poetry (hasPython3 : Bool) (env : Env) : Trace :=
  step env (poetry_cmd (if hasPython3 then "3" else "")) fun _ errs =>
    if errs = "" then ([], .ok true) else ([], .ok true)

/-- First command of `install_qbittorrent`. -/
def qb_ppa_cmd : String := "add-apt-repository ppa:qbittorrent-team/qbittorrent-stable -y"

/-- Second command of `install_qbittorrent`. -/
def qb_apt_cmd : String := "apt update -y && apt install qbittorrent -y"

/-- `install_qbittorrent`. -/
def install_qbittorrent (env : Env) : Trace :=
  checkStep env qb_ppa_cmd "Failed to add qbittorrent ppa."
    (checkAptStep env qb_apt_cmd "Failed to install qbittorrent."
      ([], .ok true))

/-- `install_not_ppkd_prog`: runs the non-packaged installers in order; each is
wrapped in a handler for `InstallationError` and `TimeoutExpired` that raises a
fresh `InstallationError` naming the program.  The final, qbittorrent-labelled
block calls `install_poetry` again (line 382 of `installers.py`). -/
def install_not_ppkd_prog (cwd : String) (hasPython3 : Bool) (env : Env) : Trace :=
  match (install_brave_browser env).2 with
  | .error _ =>
    ((install_brave_browser env).1,
     .error (.installationError "Brave browser was not installed"))
  | .ok _ =>
    match (install_docker env).2 with
    | .error _ =>
      ((install_brave_browser env).1 ++ (install_docker env).1,
       .error (.installationError "Docker was not installed."))
    | .ok _ =>
      match (install_fish_shell env).2 with
      | .error _ =>
        ((install_brave_browser env).1 ++ (install_docker env).1 ++
           (install_fish_shell env).1,
         .error (.installationError "Fish shell was not installed."))
      | .ok _ =>
        match (install_google_chrome cwd env).2 with
        | .error _ =>
          ((install_brave_browser env).1 ++ (install_docker env).1 ++
             (install_fish_shell env).1 ++ (install_google_chrome cwd env).1,
           .error (.installationError "Google Chrome was not installed."))
        | .ok _ =>
          match (install_poetry hasPython3 env).2 with
          | .error _ =>
            ((install_brave_browser env).1 ++ (install_docker env).1 ++
               (install_fish_shell env).1 ++ (install_google_chrome cwd env).1 ++
               (install_poetry hasPython3 env).1,
             .error (.installationError "Poetry was not installed."))
          | .ok _ =>
            match (install_poetry hasPython3 env).2 with
            | .error _ =>
              ((install_brave_browser env).1 ++ (install_docker env).1 ++
                 (install_fish_shell env).1 ++ (install_google_chrome cwd env).1 ++
                 (install_poetry hasPython3 env).1 ++ (install_poetry hasPython3 env).1,
               .error (.installationError "qbittorrent was not installed."))
            | .ok _ =>
              ((install_brave_browser env).1 ++ (install_docker env).1 ++
                 (install_fish_shell env).1 ++ (install_google_chrome cwd env).1 ++
                 (install_poetry hasPython3 env).1 ++ (install_poetry hasPython3 env).1,
               .ok true)

/-- First command of `cleanup`. -/
def cleanup_rm_cmd (cwd : String) : String := "rm -r " ++ DOWNLOADS_PATH cwd

/-- Second command of `cleanup`. -/
def cleanup_apt_cmd : String := "apt autoclean && apt clean"

/-- `cleanup`: removes the downloads directory and apt-cleans the system;
failures make it return `False` rather than raise. -/
def cleanup (cwd : String) (env : Env) : Trace :=
  step env (cleanup_rm_cmd cwd) fun _ errs =>
    if errs = "" then
      step env cleanup_apt_cmd fun _ errs_ =>
        if errs_ = "" then ([], .ok true)
        else if car_apt_warning errs_ = "" then ([], .ok true)
        else ([], .ok false)
    else ([], .ok false)

/-! ## Bridging lemmas for the classifier -/

lemma isPrefixChars_iff (a b : List Char) : isPrefixChars a b = true ↔ a <+: b := by
  induction a generalizing b with
  | nil => simp [isPrefixChars]
  | cons x xs ih =>
    cases b with
    | nil => simp [isPrefixChars]
    | cons y ys =>
      simp [isPrefixChars, List.cons_prefix_cons, ih, Bool.and_eq_true, beq_iff_eq]

lemma isInfixChars_iff (a b : List Char) : isInfixChars a b = true ↔ a <:+: b := by
  induction b with
  | nil =>
    cases a with
    | nil => simp [isInfixChars, isPrefixChars]
    | cons x xs => simp [isInfixChars, isPrefixChars]
  | cons y ys ih =>
    simp [isInfixChars, List.infix_cons_iff, isPrefixChars_iff, ih, Bool.or_eq_true]

/-- C1: any stderr text every line of which contains some substring from the
benign allow-list is classified as not an error, that is, the classifier
returns the empty string. -/
theorem car_apt_warning_benign_empty (text : String)
    (h : ∀ line ∈ splitChars text.data, ∃ b ∈ benign_warnings, b.data <:+: line) :
    car_apt_warning text = "" := by
  have hall : (splitChars text.data).all lineIsBenign = true := by
    rw [List.all_eq_true]
    intro line hline
    obtain ⟨b, hb, hinf⟩ := h line hline
    simp only [lineIsBenign, List.any_eq_true]
    exact ⟨b, hb, (isInfixChars_iff _ _).mpr hinf⟩
  simp only [car_apt_warning]
  rw [if_pos hall]

/-- Witness for C1 at the allow-listed stderr example of the spec. -/
theorem car_apt_warning_benign_empty_witness :
    (∀ line ∈ splitChars ("dpkg-preconfigure: unable to re-open stdin").data,
        ∃ b ∈ benign_warnings, b.data <:+: line) ∧
    car_apt_warning "dpkg-preconfigure: unable to re-open stdin" = "" :=
  ⟨by decide, car_apt_warning_benign_empty _ (by decide)⟩

/-- C2: any stderr text with at least one line containing no benign substring
is returned unchanged by the classifier, signalling a real failure. -/
theorem car_apt_warning_failure_unchanged (text : String)
    (h : ∃ line ∈ splitChars text.data, ∀ b ∈ benign_warnings, ¬ b.data <:+: line) :
    car_apt_warning text = text := by
  obtain ⟨line, hline, hno⟩ := h
  have hall : ¬ (splitChars text.data).all lineIsBenign = true := by
    rw [List.all_eq_true]
    intro hforall
    have hbl := hforall line hline
    simp only [lineIsBenign] at hbl
    obtain ⟨b, hb, hbi⟩ := List.any_eq_true.mp hbl
    exact hno b hb ((isInfixChars_iff _ _).mp hbi)
  simp only [car_apt_warning]
  rw [if_neg hall]

/-- Witness for C2 at a concrete instance of the stderr example of the spec. -/
theorem car_apt_warning_failure_unchanged_witness :
    (∃ line ∈ splitChars
        ("N: Ign:1 http://deb.example.com stable InRelease\nE: Unable to locate package foo").data,
        ∀ b ∈ benign_warnings, ¬ b.data <:+: line) ∧
    car_apt_warning "N: Ign:1 http://deb.example.com stable InRelease\nE: Unable to locate package foo" =
      "N: Ign:1 http://deb.example.com stable InRelease\nE: Unable to locate package foo" :=
  ⟨by decide, car_apt_warning_failure_unchanged _ (by decide)⟩

/-- C3: the command runner returns the captured stdout and stderr of a process
that completes within the timeout, independently of its exit code, and fails
with a timeout error when the process exceeds the timeout. -/
theorem comm_timeout_contract (run : String → ProcBehavior) (timeLimit : Nat) (cmd : String) :
    ((run cmd).duration ≤ timeLimit →
      comm run timeLimit cmd = .completed (run cmd).stdout (run cmd).stderr) ∧
    (¬ (run cmd).duration ≤ timeLimit → comm run timeLimit cmd = .timeoutError) ∧
    (∀ code : Int,
      comm (fun c => { run c with exitCode := code }) timeLimit cmd = comm run timeLimit cmd) := by
  refine ⟨fun hle => ?_, fun hgt => ?_, fun code => ?_⟩
  · simp only [comm]
    rw [if_pos hle]
  · simp only [comm]
    rw [if_neg hgt]
  · simp [comm]

/-- One fixed process behaviour: three time units, exit code 2, fixed streams. -/
def run0 : String → ProcBehavior := fun _ => ⟨3, 2, "out", "err"⟩

/-- Witness for C3: `run0` completes under a timeout of 5 and returns its
streams, and exceeds a timeout of 2. -/
theorem comm_timeout_contract_witness :
    comm run0 5 "ls -la" = .completed "out" "err" ∧ comm run0 2 "ls -la" = .timeoutError :=
  ⟨(comm_timeout_contract run0 5 "ls -la").1 (by decide),
   (comm_timeout_contract run0 2 "ls -la").2.1 (by decide)⟩

/-! ## Step combinator lemmas -/

lemma env_eq_ok (env : Env) (h : noTimeout env) (cmd : String) :
    env cmd = .ok (envOut env cmd) (envErr env cmd) := by
  cases hc : env cmd with
  | ok o e => simp [envOut, envErr, hc]
  | timeout => exact absurd hc (h cmd)

lemma step_ok {env : Env} {cmd out err : String} {k : String → String → Trace}
    (hc : env cmd = .ok out err) :
    step env cmd k = (cmd :: (k out err).1, (k out err).2) := by
  unfold step
  rw [hc]

lemma step_timeout {env : Env} {cmd : String} {k : String → String → Trace}
    (hc : env cmd = .timeout) :
    step env cmd k = ([cmd], .error .timeoutExpired) := by
  unfold step
  rw [hc]

lemma checkStep_eq {env : Env} (h : noTimeout env) (cmd msg : String) (k : Trace) :
    checkStep env cmd msg k =
      if envErr env cmd = "" then (cmd :: k.1, k.2)
      else ([cmd], .error (.installationError msg)) := by
  unfold checkStep
  rw [step_ok (env_eq_ok env h cmd)]
  by_cases he : envErr env cmd = "" <;> simp [he]

lemma checkAptStep_eq {env : Env} (h : noTimeout env) (cmd msg : String) (k : Trace) :
    checkAptStep env cmd msg k =
      if envErr env cmd = "" then (cmd :: k.1, k.2)
      else if car_apt_warning (envErr env cmd) = "" then (cmd :: k.1, k.2)
      else ([cmd], .error (.installationError msg)) := by
  unfold checkAptStep
  rw [step_ok (env_eq_ok env h cmd)]
  by_cases he : envErr env cmd = "" <;>
    by_cases hw : car_apt_warning (envErr env cmd) = "" <;> simp [he, hw]

/-- The run either returned `True` or raised an `InstallationError` whose
message is drawn from the given list. -/
abbrev okOrRaises (msgs : List String) (t : Trace) : Prop :=
  t.2 = .ok true ∨ ∃ m ∈ msgs, t.2 = .error (.installationError m)

lemma okOrRaises_checkStep {env : Env} (h : noTimeout env) {cmd msg : String}
    {msgs : List String} {k : Trace} (hm : msg ∈ msgs) (hk : okOrRaises msgs k) :
    okOrRaises msgs (checkStep env cmd msg k) := by
  rw [checkStep_eq h]
  split
  · exact hk
  · exact Or.inr ⟨msg, hm, rfl⟩

lemma okOrRaises_checkAptStep {env : Env} (h : noTimeout env) {cmd msg : String}
    {msgs : List String} {k : Trace} (hm : msg ∈ msgs) (hk : okOrRaises msgs k) :
    okOrRaises msgs (checkAptStep env cmd msg k) := by
  rw [checkAptStep_eq h]
  split
  · exact hk
  · split
    · exact hk
    · exact Or.inr ⟨msg, hm, rfl⟩

lemma okOrRaises_apt_loop {env : Env} (h : noTimeout env) (pkgs : List String)
    {msgs : List String}
    (hsub : ∀ p ∈ pkgs, ("Failed to install " ++ p ++ ".") ∈ msgs) :
    okOrRaises msgs (apt_pkg_loop env pkgs) := by
  induction pkgs with
  | nil => exact Or.inl rfl
  | cons p rest ih =>
    exact okOrRaises_checkAptStep h (hsub p (List.mem_cons_self p rest))
      (ih fun q hq => hsub q (List.mem_cons_of_mem p hq))

lemma okOrRaises_snap_loop {env : Env} (h : noTimeout env) (pkgs : List String)
    {msgs : List String} {k : Trace}
    (hsub : ∀ p ∈ pkgs, ("Failed to install " ++ p ++ ".") ∈ msgs)
    (hk : okOrRaises msgs k) :
    okOrRaises msgs (snap_pkg_loop env pkgs k) := by
  induction pkgs with
  | nil => exact hk
  | cons p rest ih =>
    exact okOrRaises_checkStep h (hsub p (List.mem_cons_self p rest))
      (ih fun q hq => hsub q (List.mem_cons_of_mem p hq))

lemma okOrRaises_docker_loop {env : Env} (h : noTimeout env) (pkgs : List String)
    {msgs : List String} {k : Trace}
    (hsub : ∀ p ∈ pkgs, ("Failed to install Docker " ++ p ++ ".") ∈ msgs)
    (hk : okOrRaises msgs k) :
    okOrRaises msgs (docker_pkg_loop env pkgs k) := by
  induction pkgs with
  | nil => exact hk
  | cons p rest ih =>
    exact okOrRaises_checkAptStep h (hsub p (List.mem_cons_self p rest))
      (ih fun q hq => hsub q (List.mem_cons_of_mem p hq))

/-! ## Message sets of the installer sequences -/

/-- Message of `pre_install`. -/
def pre_install_msgs : List String := ["Failed pre-installation procedure."]

/-- Messages of `install_apt_pkgs`, one per package. -/
def apt_msgs : List String := list_apt_pkgs.map fun p => "Failed to install " ++ p ++ "."

/-- Messages of `install_snap_pkgs`, one per app. -/
def snap_msgs : List String := list_snap_pkgs.map fun p => "Failed to install " ++ p ++ "."

/-- Messages of `install_brave_browser`. -/
def brave_msgs : List String :=
  ["Failed to add Brave Browser\x27s fingerprint.",
   "Failed to add Brave Browser\x27s ppa.",
   "Failed to install Brave Browser\x27s apt package."]

/-- Messages of `install_docker`. -/
def docker_msgs : List String :=
  ["Failed to add Docker\x27s fingerprint.", "Failed to add Docker\x27s ppa.",
   "Failed to install Docker apt packages."] ++
  (docker_pkgs.map fun p => "Failed to install Docker " ++ p ++ ".") ++
  ["Failed to add user to docker group."]

/-- Messages of `install_fish_shell`. -/
def fish_msgs : List String :=
  ["Failed to add Fish\x27s ppa.", "Failed to install Fish shell."]

/-- Messages of `install_google_chrome`. -/
def chrome_msgs : List String :=
  ["Failed to download Google Chrome\x27s .deb file.",
   "Failed to install Google Chrome from .deb file."]

/-- Messages of `install_qbittorrent`. -/
def qb_msgs : List String :=
  ["Failed to add qbittorrent ppa.", "Failed to install qbittorrent."]

/-- Messages of `install_not_ppkd_prog`, one per program label. -/
def not_ppkd_msgs : List String :=
  ["Brave browser was not installed", "Docker was not installed.",
   "Fish shell was not installed.", "Google Chrome was not installed.",
   "Poetry was not installed.", "qbittorrent was not installed."]

/-! ## Per-installer outcome lemmas -/

lemma okOrRaises_pre_install (cwd : String) {env : Env} (h : noTimeout env) :
    okOrRaises pre_install_msgs (pre_install cwd env) :=
  okOrRaises_checkStep h (by simp [pre_install_msgs]) (Or.inl rfl)

lemma okOrRaises_install_apt {env : Env} (h : noTimeout env) :
    okOrRaises apt_msgs (install_apt_pkgs env) :=
  okOrRaises_apt_loop h list_apt_pkgs fun p hp => List.mem_map_of_mem _ hp

lemma okOrRaises_install_snap {env : Env} (h : noTimeout env) :
    okOrRaises snap_msgs (install_snap_pkgs env) :=
  okOrRaises_snap_loop h _ (by decide)
    (okOrRaises_snap_loop h _ (by decide) (Or.inl rfl))

lemma okOrRaises_brave {env : Env} (h : noTimeout env) :
    okOrRaises brave_msgs (install_brave_browser env) :=
  okOrRaises_checkStep h (by simp [brave_msgs])
    (okOrRaises_checkStep h (by simp [brave_msgs])
      (okOrRaises_checkAptStep h (by simp [brave_msgs]) (Or.inl rfl)))

lemma okOrRaises_docker {env : Env} (h : noTimeout env) :
    okOrRaises docker_msgs (install_docker env) :=
  okOrRaises_checkStep h (by simp [docker_msgs])
    (okOrRaises_checkStep h (by simp [docker_msgs])
      (okOrRaises_checkAptStep h (by simp [docker_msgs])
        (okOrRaises_docker_loop h docker_pkgs (by decide)
          (okOrRaises_checkStep h (by simp [docker_msgs]) (Or.inl rfl)))))

lemma okOrRaises_fish {env : Env} (h : noTimeout env) :
    okOrRaises fish_msgs (install_fish_shell env) :=
  okOrRaises_checkStep h (by simp [fish_msgs])
    (okOrRaises_checkAptStep h (by simp [fish_msgs]) (Or.inl rfl))

lemma okOrRaises_chrome (cwd : String) {env : Env} (h : noTimeout env) :
    okOrRaises chrome_msgs (install_google_chrome cwd env) :=
  okOrRaises_checkStep h (by simp [chrome_msgs])
    (okOrRaises_checkAptStep h (by simp [chrome_msgs]) (Or.inl rfl))

lemma okOrRaises_qb {env : Env} (h : noTimeout env) :
    okOrRaises qb_msgs (install_qbittorrent env) :=
  okOrRaises_checkStep h (by simp [qb_msgs])
    (okOrRaises_checkAptStep h (by simp [qb_msgs]) (Or.inl rfl))

lemma install_poetry_ok {env : Env} (h : noTimeout env) (hasPython3 : Bool) :
    (install_poetry hasPython3 env).2 = .ok true := by
  unfold install_poetry
  rw [step_ok (env_eq_ok env h _)]
  simp

lemma okOrRaises_not_ppkd (cwd : String) (hasPython3 : Bool) {env : Env}
    (h : noTimeout env) :
    okOrRaises not_ppkd_msgs (install_not_ppkd_prog cwd hasPython3 env) := by
  unfold install_not_ppkd_prog
  split
  · exact Or.inr ⟨_, by simp [not_ppkd_msgs], rfl⟩
  · split
    · exact Or.inr ⟨_, by simp [not_ppkd_msgs], rfl⟩
    · split
      · exact Or.inr ⟨_, by simp [not_ppkd_msgs], rfl⟩
      · split
        · exact Or.inr ⟨_, by simp [not_ppkd_msgs], rfl⟩
        · split
          · exact Or.inr ⟨_, by simp [not_ppkd_msgs], rfl⟩
          · split
            · exact Or.inr ⟨_, by simp [not_ppkd_msgs], rfl⟩
            · exact Or.inl rfl

lemma cleanup_ok_or_false (cwd : String) {env : Env} (h : noTimeout env) :
    (cleanup cwd env).2 = .ok true ∨ (cleanup cwd env).2 = .ok false := by
  unfold cleanup
  rw [step_ok (env_eq_ok env h _)]
  dsimp only
  split
  · rw [step_ok (env_eq_ok env h _)]
    dsimp only
    split
    · exact Or.inl rfl
    · split
      · exact Or.inl rfl
      · exact Or.inr rfl
  · exact Or.inr rfl

/-! ## Environments used as concrete inputs -/

/-- Every command succeeds silently. -/
def env0 : Env := fun _ => .ok "" ""

lemma noTimeout_env0 : noTimeout env0 := fun _ h => by simp [env0] at h

/-- Every command completes but writes a real failure to stderr. -/
def env_all_fail : Env := fun _ => .ok "" "E: some real failure"

lemma noTimeout_env_all_fail : noTimeout env_all_fail := fun _ h => by
  simp [env_all_fail] at h

/-- C4: `install_poetry` does not raise on a real failure.  With stderr text
that the classifier would keep as a real failure, the function still returns
`True`: the source constructs `InstallationError` without `raise`. -/
theorem install_poetry_swallows_real_failure :
    envErr env_all_fail (poetry_cmd "3") = "E: some real failure" ∧
    car_apt_warning "E: some real failure" = "E: some real failure" ∧
    install_poetry true env_all_fail = ([poetry_cmd "3"], .ok true) :=
  ⟨rfl, by decide, rfl⟩

/-- C5 counterexample: on a failing first command, `cleanup` signals the real
failure by returning `False` instead of raising an `InstallationError`. -/
theorem cleanup_returns_false_on_failure :
    envErr env_all_fail (cleanup_rm_cmd "/root") = "E: some real failure" ∧
    cleanup "/root" env_all_fail = ([cleanup_rm_cmd "/root"], .ok false) :=
  ⟨rfl, rfl⟩

/-- C5 (amended): in a run without timeouts, every operation except `cleanup`
and `install_poetry` either returns `True` or raises an `InstallationError`
whose message is drawn from that operation's fixed list naming the failing
program or package; `cleanup` instead signals failure by returning `False`,
and `install_poetry` returns `True` unconditionally. -/
theorem installers_raise_installation_error (cwd : String) (hasPython3 : Bool)
    (env : Env) (h : noTimeout env) :
    okOrRaises pre_install_msgs (pre_install cwd env) ∧
    okOrRaises apt_msgs (install_apt_pkgs env) ∧
    okOrRaises snap_msgs (install_snap_pkgs env) ∧
    okOrRaises brave_msgs (install_brave_browser env) ∧
    okOrRaises docker_msgs (install_docker env) ∧
    okOrRaises fish_msgs (install_fish_shell env) ∧
    okOrRaises chrome_msgs (install_google_chrome cwd env) ∧
    okOrRaises qb_msgs (install_qbittorrent env) ∧
    okOrRaises not_ppkd_msgs (install_not_ppkd_prog cwd hasPython3 env) ∧
    ((cleanup cwd env).2 = .ok true ∨ (cleanup cwd env).2 = .ok false) ∧
    (install_poetry hasPython3 env).2 = .ok true :=
  ⟨okOrRaises_pre_install cwd h, okOrRaises_install_apt h, okOrRaises_install_snap h,
   okOrRaises_brave h, okOrRaises_docker h, okOrRaises_fish h, okOrRaises_chrome cwd h,
   okOrRaises_qb h, okOrRaises_not_ppkd cwd hasPython3 h, cleanup_ok_or_false cwd h,
   install_poetry_ok h hasPython3⟩

/-- Witness for amended C5 at the all-quiet environment. -/
theorem installers_raise_installation_error_witness :
    okOrRaises pre_install_msgs (pre_install "/root" env0) ∧
    okOrRaises apt_msgs (install_apt_pkgs env0) ∧
    okOrRaises snap_msgs (install_snap_pkgs env0) ∧
    okOrRaises brave_msgs (install_brave_browser env0) ∧
    okOrRaises docker_msgs (install_docker env0) ∧
    okOrRaises fish_msgs (install_fish_shell env0) ∧
    okOrRaises chrome_msgs (install_google_chrome "/root" env0) ∧
    okOrRaises qb_msgs (install_qbittorrent env0) ∧
    okOrRaises not_ppkd_msgs (install_not_ppkd_prog "/root" true env0) ∧
    ((cleanup "/root" env0).2 = .ok true ∨ (cleanup "/root" env0).2 = .ok false) ∧
    (install_poetry true env0).2 = .ok true :=
  installers_raise_installation_error "/root" true env0 noTimeout_env0

/-! ## The apt installation contract -/

/-- The apt invocation for a package wrote stderr that the classifier kept as
a real failure. -/
abbrev apt_real_failure (env : Env) (pkg : String) : Prop :=
  envErr env (aptInstallCmd pkg) ≠ "" ∧
  car_apt_warning (envErr env (aptInstallCmd pkg)) ≠ ""

lemma apt_loop_all_ok {env : Env} (h : noTimeout env) (pkgs : List String)
    (hok : ∀ p ∈ pkgs, ¬ apt_real_failure env p) :
    apt_pkg_loop env pkgs = (pkgs.map aptInstallCmd, .ok true) := by
  induction pkgs with
  | nil => rfl
  | cons p rest ih =>
    have hrest := ih fun q hq => hok q (List.mem_cons_of_mem p hq)
    have hp := hok p (List.mem_cons_self p rest)
    simp only [apt_pkg_loop]
    rw [checkAptStep_eq h, hrest]
    by_cases he : envErr env (aptInstallCmd p) = ""
    · rw [if_pos he]
      simp
    · have hw : car_apt_warning (envErr env (aptInstallCmd p)) = "" := by
        by_contra hw
        exact hp ⟨he, hw⟩
      rw [if_neg he, if_pos hw]
      simp

lemma apt_loop_first_fail {env : Env} (h : noTimeout env) :
    ∀ (front : List String) (p : String) (post : List String),
      (∀ q ∈ front, ¬ apt_real_failure env q) → apt_real_failure env p →
      apt_pkg_loop env (front ++ p :: post) =
        ((front ++ [p]).map aptInstallCmd,
         .error (.installationError ("Failed to install " ++ p ++ "."))) := by
  intro front
  induction front with
  | nil =>
    intro p post _ hp
    simp only [List.nil_append, apt_pkg_loop]
    rw [checkAptStep_eq h, if_neg hp.1, if_neg hp.2]
    simp
  | cons q rest ih =>
    intro p post hok hp
    have hq := hok q (List.mem_cons_self q rest)
    simp only [List.cons_append, apt_pkg_loop, List.append_eq]
    rw [checkAptStep_eq h, ih p post (fun r hr => hok r (List.mem_cons_of_mem q hr)) hp]
    by_cases he : envErr env (aptInstallCmd q) = ""
    · rw [if_pos he]
      simp
    · have hw : car_apt_warning (envErr env (aptInstallCmd q)) = "" := by
        by_contra hw
        exact hq ⟨he, hw⟩
      rw [if_neg he, if_pos hw]
      simp

/-- C6: `install_apt_pkgs` runs `apt install -y <pkg>` over the fixed list in
order; when every stderr is empty or classified benign it executes every
command and returns `True`, and at the first package whose stderr the
classifier keeps it stops right after that package and raises the
`InstallationError` naming it. -/
theorem install_apt_pkgs_contract (env : Env) (h : noTimeout env) :
    ((∀ p ∈ list_apt_pkgs, ¬ apt_real_failure env p) →
      install_apt_pkgs env = (list_apt_pkgs.map aptInstallCmd, .ok true)) ∧
    (∀ (front : List String) (p : String) (post : List String),
      list_apt_pkgs = front ++ p :: post →
      (∀ q ∈ front, ¬ apt_real_failure env q) → apt_real_failure env p →
      install_apt_pkgs env =
        ((front ++ [p]).map aptInstallCmd,
         .error (.installationError ("Failed to install " ++ p ++ ".")))) := by
  constructor
  · intro hok
    unfold install_apt_pkgs
    exact apt_loop_all_ok h list_apt_pkgs hok
  · intro front p post hsplit hok hp
    unfold install_apt_pkgs
    rw [hsplit]
    exact apt_loop_first_fail h front p post hok hp

/-- All commands succeed except the first apt package, whose stderr is a real
failure that the classifier keeps. -/
def env_apt_fail : Env := fun c =>
  if c = aptInstallCmd "build-essential"
  then .ok "" "E: Unable to locate package build-essential"
  else .ok "" ""

lemma noTimeout_env_apt_fail : noTimeout env_apt_fail := fun c h => by
  simp only [env_apt_fail] at h
  split at h <;> simp at h

/-- Witness for C6: the all-quiet run installs every package in order, and a
real failure at the first package aborts right there with its message. -/
theorem install_apt_pkgs_contract_witness :
    install_apt_pkgs env0 = (list_apt_pkgs.map aptInstallCmd, .ok true) ∧
    install_apt_pkgs env_apt_fail =
      ([aptInstallCmd "build-essential"],
       .error (.installationError "Failed to install build-essential.")) :=
  ⟨(install_apt_pkgs_contract env0 noTimeout_env0).1 fun _ _ hfail => hfail.1 rfl,
   (install_apt_pkgs_contract env_apt_fail noTimeout_env_apt_fail).2
     [] "build-essential"
     ["python3-dev", "pkg-config", "apt-transport-https", "cmake", "curl",
      "ca-certificates", "gnupg", "lsb-release", "htop", "mmv", "neovim", "tmux"]
     rfl (by simp) ⟨by decide, by decide⟩⟩

/-! ## Failure propagation in the multi-program sequence -/

/-- Every command succeeds silently except the Brave key download, which fails. -/
def env_brave_fail : Env := fun c =>
  if c = brave_keys_cmd then .ok "" "curl: (7) Failed to connect" else .ok "" ""

lemma noTimeout_env_brave_fail : noTimeout env_brave_fail := fun c h => by
  simp only [env_brave_fail] at h
  split at h <;> simp at h

/-- C7 counterexample: when the Brave Browser installation fails,
`install_not_ppkd_prog` raises a fresh `InstallationError` itself, and the
Docker installer's first command is never executed, so the later steps are not
left to any caller's decision. -/
theorem not_ppkd_brave_failure_stops_docker :
    (install_not_ppkd_prog "/root" true env_brave_fail).2 =
      .error (.installationError "Brave browser was not installed") ∧
    docker_keys_cmd ∉ (install_not_ppkd_prog "/root" true env_brave_fail).1 :=
  ⟨rfl, by decide⟩

/-- C7 (amended): a failure inside one installer of `install_not_ppkd_prog`
aborts the whole multi-program sequence: when the Brave Browser installer
raises, `install_not_ppkd_prog` itself raises the Brave message and the
executed commands are exactly those of the Brave attempt, so no later
installer runs. -/
theorem not_ppkd_first_failure_aborts_sequence (cwd : String) (hasPython3 : Bool)
    (env : Env) (e : StepError)
    (hb : (install_brave_browser env).2 = .error e) :
    install_not_ppkd_prog cwd hasPython3 env =
      ((install_brave_browser env).1,
       .error (.installationError "Brave browser was not installed")) := by
  unfold install_not_ppkd_prog
  rw [hb]

/-- Witness for amended C7 at the Brave-failing environment. -/
theorem not_ppkd_first_failure_aborts_sequence_witness :
    install_not_ppkd_prog "/root" true env_brave_fail =
      ((install_brave_browser env_brave_fail).1,
       .error (.installationError "Brave browser was not installed")) :=
  not_ppkd_first_failure_aborts_sequence "/root" true env_brave_fail
    (.installationError "Failed to add Brave Browser\x27s fingerprint.") rfl

/-! ## The snap installation order and failure behaviour -/

/-- The order in which `install_snap_pkgs` attempts the apps: flagged packages
first, then unflagged ones, each group in original list order. -/
def snap_install_order : List String :=
  (split_snap list_snap_pkgs).2 ++ (split_snap list_snap_pkgs).1

lemma snap_loop_append (env : Env) (l1 l2 : List String) (k : Trace) :
    snap_pkg_loop env l1 (snap_pkg_loop env l2 k) = snap_pkg_loop env (l1 ++ l2) k := by
  induction l1 with
  | nil => rfl
  | cons p rest ih => simp only [snap_pkg_loop, List.cons_append, List.append_eq, ih]

lemma snap_loop_all_ok {env : Env} (h : noTimeout env) (pkgs : List String) (k : Trace)
    (hok : ∀ q ∈ pkgs, envErr env (snapCmd q) = "") :
    snap_pkg_loop env pkgs k = (pkgs.map snapCmd ++ k.1, k.2) := by
  induction pkgs with
  | nil => simp [snap_pkg_loop]
  | cons p rest ih =>
    simp only [snap_pkg_loop]
    rw [checkStep_eq h, if_pos (hok p (List.mem_cons_self p rest)),
      ih fun q hq => hok q (List.mem_cons_of_mem p hq)]
    simp

lemma snap_loop_first_fail {env : Env} (h : noTimeout env) :
    ∀ (front : List String) (p : String) (post : List String) (k : Trace),
      (∀ q ∈ front, envErr env (snapCmd q) = "") → envErr env (snapCmd p) ≠ "" →
      snap_pkg_loop env (front ++ p :: post) k =
        ((front ++ [p]).map snapCmd,
         .error (.installationError ("Failed to install " ++ p ++ "."))) := by
  intro front
  induction front with
  | nil =>
    intro p post k _ hp
    simp only [List.nil_append, snap_pkg_loop]
    rw [checkStep_eq h, if_neg hp]
    simp
  | cons q rest ih =>
    intro p post k hok hp
    simp only [List.cons_append, snap_pkg_loop, List.append_eq]
    rw [checkStep_eq h, if_pos (hok q (List.mem_cons_self q rest)),
      ih p post k (fun r hr => hok r (List.mem_cons_of_mem q hr)) hp]
    simp

/-- C8: `install_snap_pkgs` raises at the first snap command with any
non-empty stderr, without consulting `car_apt_warning`: no hypothesis on the
classifier appears, so stderr that would be benign for an apt invocation
aborts all the same. -/
theorem install_snap_pkgs_raises_unclassified (env : Env) (h : noTimeout env)
    (front : List String) (p : String) (post : List String)
    (horder : snap_install_order = front ++ p :: post)
    (hok : ∀ q ∈ front, envErr env (snapCmd q) = "")
    (hfail : envErr env (snapCmd p) ≠ "") :
    install_snap_pkgs env =
      ((front ++ [p]).map snapCmd,
       .error (.installationError ("Failed to install " ++ p ++ "."))) := by
  have hsplit : install_snap_pkgs env =
      snap_pkg_loop env snap_install_order ([], .ok true) := by
    unfold install_snap_pkgs snap_install_order
    rw [snap_loop_append]
  rw [hsplit, horder]
  exact snap_loop_first_fail h front p post _ hok hfail

/-- Every command succeeds silently except the first snap install, whose
stderr is a substring from the benign apt allow-list. -/
def env_snap_fail : Env := fun c =>
  if c = snapCmd "sublime-text --classic"
  then .ok "" "dpkg-preconfigure: unable to re-open stdin"
  else .ok "" ""

lemma noTimeout_env_snap_fail : noTimeout env_snap_fail := fun c h => by
  simp only [env_snap_fail] at h
  split at h <;> simp at h

/-- Witness for C8: stderr that the apt classifier would call benign still
aborts the snap installation at that package. -/
theorem install_snap_pkgs_raises_unclassified_witness :
    car_apt_warning "dpkg-preconfigure: unable to re-open stdin" = "" ∧
    install_snap_pkgs env_snap_fail =
      ([snapCmd "sublime-text --classic"],
       .error (.installationError "Failed to install sublime-text --classic.")) :=
  ⟨by decide,
   install_snap_pkgs_raises_unclassified env_snap_fail noTimeout_env_snap_fail
     [] "sublime-text --classic"
     ["code --classic", "bitwarden", "jdownloader2", "libreoffice",
      "signal-desktop", "spotify", "vlc"]
     rfl (by simp) (by decide)⟩

/-- C10: `install_snap_pkgs` splits the fixed snap list into the entries
containing `--classic` and the rest, keeping each group in original list
order (the groups are exactly the two filters), and a fully quiet run issues
the flagged commands first, then the unflagged ones. -/
theorem install_snap_pkgs_classic_first :
    (split_snap list_snap_pkgs).2 = ["sublime-text --classic", "code --classic"] ∧
    (split_snap list_snap_pkgs).1 =
      ["bitwarden", "jdownloader2", "libreoffice", "signal-desktop", "spotify", "vlc"] ∧
    (split_snap list_snap_pkgs).2 =
      list_snap_pkgs.filter (fun p => containsSubstr "--classic" p) ∧
    (split_snap list_snap_pkgs).1 =
      list_snap_pkgs.filter (fun p => !(containsSubstr "--classic" p)) ∧
    (∀ env : Env, noTimeout env → (∀ cmd, envErr env cmd = "") →
      install_snap_pkgs env = (snap_install_order.map snapCmd, .ok true)) := by
  refine ⟨rfl, rfl, rfl, rfl, fun env h hquiet => ?_⟩
  have hsplit : install_snap_pkgs env =
      snap_pkg_loop env snap_install_order ([], .ok true) := by
    unfold install_snap_pkgs snap_install_order
    rw [snap_loop_append]
  rw [hsplit, snap_loop_all_ok h snap_install_order _ fun q _ => hquiet _]
  simp

/-- Witness for C10 at the all-quiet environment. -/
theorem install_snap_pkgs_classic_first_witness :
    install_snap_pkgs env0 = (snap_install_order.map snapCmd, .ok true) :=
  install_snap_pkgs_classic_first.2.2.2.2 env0 noTimeout_env0 fun _ => rfl

/-! ## Which commands the multi-program sequence can execute -/

lemma checkStep_trace (env : Env) (cmd msg : String) (k : Trace) :
    (checkStep env cmd msg k).1 = [cmd] ∨ (checkStep env cmd msg k).1 = cmd :: k.1 := by
  unfold checkStep step
  cases env cmd with
  | timeout => exact Or.inl rfl
  | ok out err => by_cases he : err = "" <;> simp [he]

lemma checkAptStep_trace (env : Env) (cmd msg : String) (k : Trace) :
    (checkAptStep env cmd msg k).1 = [cmd] ∨
    (checkAptStep env cmd msg k).1 = cmd :: k.1 := by
  unfold checkAptStep step
  cases env cmd with
  | timeout => exact Or.inl rfl
  | ok out err =>
    by_cases he : err = "" <;> by_cases hw : car_apt_warning err = "" <;> simp [he, hw]

lemma trace_sub_trans {t : Trace} {cmd : String} {k : Trace} {s : List String}
    (hsh : t.1 = [cmd] ∨ t.1 = cmd :: k.1) (hk : k.1 ⊆ s) : t.1 ⊆ cmd :: s := by
  rcases hsh with hsh | hsh <;> rw [hsh]
  · intro x hx
    rw [List.mem_singleton] at hx
    exact hx ▸ List.mem_cons_self _ _
  · exact List.cons_subset_cons cmd hk

/-- The commands `install_brave_browser` can execute. -/
def brave_cmds : List String := [brave_keys_cmd, brave_repo_cmd, brave_apt_cmd]

/-- The commands `install_docker` can execute. -/
def docker_cmds : List String :=
  [docker_keys_cmd, docker_repo_cmd, docker_update_cmd] ++
  docker_pkgs.map aptInstallCmd ++ [docker_usermod_cmd]

/-- The commands `install_fish_shell` can execute. -/
def fish_cmds : List String := [fish_ppa_cmd, fish_apt_cmd]

/-- The commands `install_google_chrome` can execute. -/
def chrome_cmds (cwd : String) : List String := [chrome_dl_cmd cwd, chrome_inst_cmd cwd]

lemma brave_trace_sub (env : Env) : (install_brave_browser env).1 ⊆ brave_cmds := by
  unfold install_brave_browser brave_cmds
  exact trace_sub_trans (checkStep_trace _ _ _ _)
    (trace_sub_trans (checkStep_trace _ _ _ _)
      (trace_sub_trans (checkAptStep_trace _ _ _ _) (List.nil_subset _)))

lemma docker_loop_trace_sub (env : Env) (pkgs : List String) {k : Trace}
    {s : List String} (hk : k.1 ⊆ s) :
    (docker_pkg_loop env pkgs k).1 ⊆ pkgs.map aptInstallCmd ++ s := by
  induction pkgs with
  | nil =>
    simp only [docker_pkg_loop, List.map_nil, List.nil_append]
    exact hk
  | cons p rest ih =>
    simp only [docker_pkg_loop, List.map_cons, List.cons_append]
    exact trace_sub_trans (checkAptStep_trace _ _ _ _) ih

lemma docker_trace_sub (env : Env) : (install_docker env).1 ⊆ docker_cmds := by
  unfold install_docker docker_cmds
  exact trace_sub_trans (checkStep_trace _ _ _ _)
    (trace_sub_trans (checkStep_trace _ _ _ _)
      (trace_sub_trans (checkAptStep_trace _ _ _ _)
        (docker_loop_trace_sub env docker_pkgs
          (trace_sub_trans (checkStep_trace _ _ _ _) (List.nil_subset _)))))

lemma fish_trace_sub (env : Env) : (install_fish_shell env).1 ⊆ fish_cmds := by
  unfold install_fish_shell fish_cmds
  exact trace_sub_trans (checkStep_trace _ _ _ _)
    (trace_sub_trans (checkAptStep_trace _ _ _ _) (List.nil_subset _))

lemma chrome_trace_sub (cwd : String) (env : Env) :
    (install_google_chrome cwd env).1 ⊆ chrome_cmds cwd := by
  unfold install_google_chrome chrome_cmds
  exact trace_sub_trans (checkStep_trace _ _ _ _)
    (trace_sub_trans (checkAptStep_trace _ _ _ _) (List.nil_subset _))

lemma poetry_trace (hasPython3 : Bool) (env : Env) :
    (install_poetry hasPython3 env).1 = [poetry_cmd (if hasPython3 then "3" else "")] := by
  unfold install_poetry step
  cases env (poetry_cmd (if hasPython3 then "3" else "")) with
  | timeout => rfl
  | ok out err => by_cases he : err = "" <;> simp [he]

lemma not_ppkd_trace_mem {cwd : String} {hasPython3 : Bool} {env : Env} {x : String}
    (hx : x ∈ (install_not_ppkd_prog cwd hasPython3 env).1) :
    x ∈ (install_brave_browser env).1 ∨ x ∈ (install_docker env).1 ∨
    x ∈ (install_fish_shell env).1 ∨ x ∈ (install_google_chrome cwd env).1 ∨
    x ∈ (install_poetry hasPython3 env).1 := by
  unfold install_not_ppkd_prog at hx
  repeat' split at hx
  all_goals simp only [List.mem_append] at hx
  all_goals tauto

lemma string_head_append (u v : String) (c : Char) (h : u.data.head? = some c) :
    (u ++ v).data.head? = some c := by
  rw [String.data_append]
  cases hu : u.data with
  | nil => rw [hu] at h; simp at h
  | cons a t =>
    rw [hu] at h
    rw [List.cons_append, List.head?_cons]
    rw [List.head?_cons] at h
    exact h

lemma chrome_dl_head (cwd : String) : (chrome_dl_cmd cwd).data.head? = some 'c' := by
  unfold chrome_dl_cmd DOWNLOADS_PATH
  exact string_head_append _ _ _
    (string_head_append _ _ _ (string_head_append _ _ _ (by decide)))

lemma chrome_inst_head (cwd : String) : (chrome_inst_cmd cwd).data.head? = some 'c' := by
  unfold chrome_inst_cmd DOWNLOADS_PATH
  exact string_head_append _ _ _
    (string_head_append _ _ _ (string_head_append _ _ _ (by decide)))

lemma qb_ppa_ne_chrome_dl (cwd : String) : qb_ppa_cmd ≠ chrome_dl_cmd cwd := by
  intro heq
  have hh := chrome_dl_head cwd
  rw [← heq] at hh
  exact absurd hh (by decide)

lemma qb_ppa_ne_chrome_inst (cwd : String) : qb_ppa_cmd ≠ chrome_inst_cmd cwd := by
  intro heq
  have hh := chrome_inst_head cwd
  rw [← heq] at hh
  exact absurd hh (by decide)

lemma qb_apt_ne_chrome_dl (cwd : String) : qb_apt_cmd ≠ chrome_dl_cmd cwd := by
  intro heq
  have hh := chrome_dl_head cwd
  rw [← heq] at hh
  exact absurd hh (by decide)

lemma qb_apt_ne_chrome_inst (cwd : String) : qb_apt_cmd ≠ chrome_inst_cmd cwd := by
  intro heq
  have hh := chrome_inst_head cwd
  rw [← heq] at hh
  exact absurd hh (by decide)

/-- C9: `install_not_ppkd_prog` never executes either command of
`install_qbittorrent`, and a fully successful run executes exactly the
commands of the five other installers with the Poetry script run twice, the
second time under the qbittorrent label. -/
theorem not_ppkd_never_runs_qbittorrent (cwd : String) (hasPython3 : Bool) (env : Env) :
    (qb_ppa_cmd ∉ (install_not_ppkd_prog cwd hasPython3 env).1 ∧
     qb_apt_cmd ∉ (install_not_ppkd_prog cwd hasPython3 env).1) ∧
    (noTimeout env →
      (install_brave_browser env).2 = .ok true →
      (install_docker env).2 = .ok true →
      (install_fish_shell env).2 = .ok true →
      (install_google_chrome cwd env).2 = .ok true →
      install_not_ppkd_prog cwd hasPython3 env =
        ((install_brave_browser env).1 ++ (install_docker env).1 ++
           (install_fish_shell env).1 ++ (install_google_chrome cwd env).1 ++
           (install_poetry hasPython3 env).1 ++ (install_poetry hasPython3 env).1,
         .ok true)) := by
  constructor
  · constructor
    · intro hmem
      rcases not_ppkd_trace_mem hmem with hm | hm | hm | hm | hm
      · exact absurd (brave_trace_sub env hm) (by decide)
      · exact absurd (docker_trace_sub env hm) (by decide)
      · exact absurd (fish_trace_sub env hm) (by decide)
      · have hc := chrome_trace_sub cwd env hm
        simp only [chrome_cmds, List.mem_cons, List.not_mem_nil, or_false] at hc
        rcases hc with hc | hc
        · exact qb_ppa_ne_chrome_dl cwd hc
        · exact qb_ppa_ne_chrome_inst cwd hc
      · rw [poetry_trace] at hm
        cases hasPython3 <;> exact absurd hm (by decide)
    · intro hmem
      rcases not_ppkd_trace_mem hmem with hm | hm | hm | hm | hm
      · exact absurd (brave_trace_sub env hm) (by decide)
      · exact absurd (docker_trace_sub env hm) (by decide)
      · exact absurd (fish_trace_sub env hm) (by decide)
      · have hc := chrome_trace_sub cwd env hm
        simp only [chrome_cmds, List.mem_cons, List.not_mem_nil, or_false] at hc
        rcases hc with hc | hc
        · exact qb_apt_ne_chrome_dl cwd hc
        · exact qb_apt_ne_chrome_inst cwd hc
      · rw [poetry_trace] at hm
        cases hasPython3 <;> exact absurd hm (by decide)
  · intro hnt hb hd hf hg
    have hpo := install_poetry_ok hnt hasPython3
    unfold install_not_ppkd_prog
    rw [hb, hd, hf, hg, hpo]

/-- Witness for C9: the all-quiet run issues every installer's commands with
the Poetry script twice and no qbittorrent command. -/
theorem not_ppkd_never_runs_qbittorrent_witness :
    install_not_ppkd_prog "/root" true env0 =
      ((install_brave_browser env0).1 ++ (install_docker env0).1 ++
         (install_fish_shell env0).1 ++ (install_google_chrome "/root" env0).1 ++
         (install_poetry true env0).1 ++ (install_poetry true env0).1, .ok true) :=
  (not_ppkd_never_runs_qbittorrent "/root" true env0).2 noTimeout_env0 rfl rfl rfl rfl

end PcSetup
